import Mathlib

/-!
Shallow embedding of the review auto-reply engine of the
google-play-reviews-dashboard repository.

Review text is modelled as `List Char` (Python `str`).  The generative
model, the storefront listing and the storefront dispatch are external
collaborators; they enter the embedding as oracle parameters
(`ModelResult`-valued functions, `PostResult`-valued functions and the
fetched review list).  File/network side effects (history persistence,
logging) do not influence any return value modelled here and are omitted.

Two variants of the engine exist in the repository and both are embedded:
the CLI variant (`ai_response.py`, `reviews.py`) and the backend variant
(`backend/ai_response.py`, `backend/reviews.py`).
-/

set_option maxRecDepth 10000

namespace PlayReviews

/-- Whitespace as recognised by Python `str.strip` / `str.split` on the
ASCII range: space, tab, newline, carriage return, vertical tab, form feed. -/
def isPySpace (c : Char) : Bool :=
  c = ' ' || c = '\t' || c = '\n' || c = '\r' || c = Char.ofNat 11 || c = Char.ofNat 12

/-- Python `str.lower` on one character, restricted to the character ranges
appearing in this code base: ASCII letters, the Latin-1 uppercase block,
Cyrillic, and the Turkish letters Ğ and Ş.  All keyword tables of the source
are already lower case, so this suffices to model the `text.lower()` calls. -/
def pyCharLower (c : Char) : Char :=
  let n := c.toNat
  if 0x41 ≤ n ∧ n ≤ 0x5A then Char.ofNat (n + 32)
  else if 0xC0 ≤ n ∧ n ≤ 0xDE ∧ n ≠ 0xD7 then Char.ofNat (n + 32)
  else if 0x410 ≤ n ∧ n ≤ 0x42F then Char.ofNat (n + 32)
  else if n = 0x401 then Char.ofNat 0x451
  else if n = 0x11E then Char.ofNat 0x11F
  else if n = 0x15E then Char.ofNat 0x15F
  else c

/-- Python `str.lower` on a whole string. -/
def pyLower (s : List Char) : List Char := s.map pyCharLower

/-- Python `needle in hay` on strings: substring containment. -/
def containsSub (needle : List Char) : List Char → Bool
  | [] => needle.isEmpty
  | c :: rest => needle.isPrefixOf (c :: rest) || containsSub needle rest

/-- Python `str.strip()`: drop whitespace from both ends. -/
def pyStrip (s : List Char) : List Char :=
  (s.dropWhile isPySpace).rdropWhile isPySpace

/-- Python `str.split()` (no separator): whitespace-delimited words,
empty words discarded.  `acc` carries the current word, reversed. -/
def pySplitAux : List Char → List Char → List (List Char)
  | [], acc => if acc.isEmpty then [] else [acc.reverse]
  | c :: rest, acc =>
    if isPySpace c then
      if acc.isEmpty then pySplitAux rest [] else acc.reverse :: pySplitAux rest []
    else pySplitAux rest (c :: acc)

def pySplit (s : List Char) : List (List Char) := pySplitAux s []

/-! ## CLI variant: `ai_response.py` -/

/-- `AIResponseGenerator.forbidden_words` (ai_response.py, lines 47-50). -/
def forbidden_words : List (List Char) :=
  ["sorry".toList, "apologize".toList, "unfortunately".toList, "regret".toList,
   "disappointed".toList, "terrible".toList, "awful".toList, "hate".toList,
   "worst".toList, "useless".toList, "broken".toList]

/-- `AIResponseGenerator.response_rules` (ai_response.py, lines 38-44):
the rating → policy dictionary. -/
def response_rules : List (Int × String) :=
  [(1, "apologize_and_support"), (2, "apologize_and_support"),
   (3, "neutral_improvement"), (4, "thank_and_engage"), (5, "thank_and_engage")]

/-- `self.response_rules.get(rating, "neutral_improvement")`
(ai_response.py, line 196): dictionary lookup with default. -/
def response_rules_get (rating : Int) : String :=
  ((response_rules.find? (fun p => p.1 == rating)).map (fun p => p.2)).getD
    "neutral_improvement"

/-- The Turkish keyword list of `detect_language` (ai_response.py, line 145). -/
def turkish_keywords : List (List Char) :=
  ["çok".toList, "güzel".toList, "harika".toList, "teşekkür".toList,
   "sağol".toList, "iyi".toList, "kötü".toList]

def spanish_keywords : List (List Char) :=
  ["muy".toList, "bueno".toList, "excelente".toList, "gracias".toList,
   "malo".toList, "buena".toList]

def french_keywords : List (List Char) :=
  ["très".toList, "bon".toList, "excellent".toList, "merci".toList,
   "mauvais".toList, "bien".toList]

def german_keywords : List (List Char) :=
  ["sehr".toList, "gut".toList, "ausgezeichnet".toList, "danke".toList,
   "schlecht".toList, "toll".toList]

def russian_keywords : List (List Char) :=
  ["очень".toList, "хорошо".toList, "отлично".toList, "спасибо".toList,
   "плохо".toList, "классно".toList]

def indonesian_keywords : List (List Char) :=
  ["sangat".toList, "bagus".toList, "bagus".toList, "terima".toList,
   "kasih".toList, "buruk".toList]

def persian_keywords : List (List Char) :=
  ["خیلی".toList, "خوب".toList, "عالی".toList, "ممنون".toList,
   "بد".toList, "عالی".toList]

/-- `AIResponseGenerator.detect_language` (ai_response.py, lines 131-173):
lowercase the text (the source binds `text_lower = text.lower()`, inlined
here as `pyLower text`), then test the language keyword lists in source
order (`any(word in text_lower for word in [...])`), defaulting to `"en"`. -/
def detect_language (text : List Char) : String :=
  if turkish_keywords.any (fun w => containsSub w (pyLower text)) then "tr"
  else if spanish_keywords.any (fun w => containsSub w (pyLower text)) then "es"
  else if french_keywords.any (fun w => containsSub w (pyLower text)) then "fr"
  else if german_keywords.any (fun w => containsSub w (pyLower text)) then "de"
  else if russian_keywords.any (fun w => containsSub w (pyLower text)) then "ru"
  else if indonesian_keywords.any (fun w => containsSub w (pyLower text)) then "id"
  else if persian_keywords.any (fun w => containsSub w (pyLower text)) then "fa"
  else "en"

/-- The length transform of `_validate_response` (ai_response.py, lines 310-311):
`if len(response) > 350: response = response[:347] + "..."`. -/
def truncate_response (response : List Char) : List Char :=
  if 350 < response.length then response.take 347 ++ ['.', '.', '.'] else response

/-- `AIResponseGenerator._validate_response` (ai_response.py, lines 295-333).
The `language` argument only drives log warnings in the source (the tr/ru
alphabet checks at lines 326-331 never change the returned value), so it is
accepted and ignored here exactly as it is operationally ignored there. -/
def _validate_response (response : List Char) (_language : String) : Option (List Char) :=
  if response.isEmpty then none
  else if forbidden_words.any
      (fun w => containsSub w (pyLower (truncate_response response))) then none
  else if (pyStrip (truncate_response response)).length < 10 then none
  else some (pyStrip (truncate_response response))

/-- Outcome of the one external `gemini_client.generate_content` call made by
`generate_response`: either the model's text, or an exception escaping the
call (caught by the surrounding `except` and turned into `None`). -/
inductive ModelResult where
  | text (t : List Char)
  | failure (msg : String)
deriving DecidableEq

/-- `AIResponseGenerator.generate_response` (ai_response.py, lines 175-225).
`client_configured` models `self.gemini_client` being non-`None`; `mr` is
the oracle outcome of the one model call.  Prompt construction
(`_build_prompt`, which consults `response_rules_get`) only shapes the
model input and is absorbed into the oracle; history logging has no effect
on the returned value. -/
def generate_response (client_configured : Bool) (mr : ModelResult)
    (review_text : List Char) (rating : Int) : Option (List Char) :=
  if !client_configured then none
  else
    match mr with
    | .failure _ => none
    | .text t =>
      let language := detect_language review_text
      let _rule := response_rules_get rating
      _validate_response (pyStrip t) language

/-! ## CLI variant: `reviews.py` -/

/-- One formatted review as consumed by `auto_reply_to_reviews`
(reviews.py, lines 211-216): the fields of the dictionaries produced by
`list_reviews` that the auto-reply loop reads. -/
structure Review where
  reviewId : String
  rating : Int
  userComment : List Char
  hasReply : Bool
deriving DecidableEq

/-- Outcome of one `reply_to_review` call (the storefront dispatch
collaborator): normal return value, or an exception escaping the call
(caught by the per-review `except` of the loop). -/
inductive PostResult where
  | ok
  | fail
  | exc (msg : String)
deriving DecidableEq

/-- One entry of `results["details"]` (reviews.py, lines 222-293). -/
structure Detail where
  review_id : String
  status : String
  reason : Option String
  response : Option (List Char)
deriving DecidableEq

/-- The `results` dictionary of `auto_reply_to_reviews` (reviews.py,
lines 203-209), plus `dispatched`: instrumentation recording every call
made to `reply_to_review` (review id and reply text), used to state
that dry runs perform no dispatch. -/
structure RunResults where
  processed : Nat
  successful : Nat
  failed : Nat
  skipped : Nat
  details : List Detail
  dispatched : List (String × List Char)
deriving DecidableEq

/-- The body of the per-review loop of `auto_reply_to_reviews`
(reviews.py, lines 211-293), as the detail record it appends.
`model` is the oracle for the one Gemini call `generate_response` makes
for this review; `post` is the oracle for `reply_to_review`. -/
def reviewDetail (client_configured : Bool) (model : Review → ModelResult)
    (post : String → List Char → PostResult) (dry_run : Bool) (r : Review) : Detail :=
  if r.hasReply then ⟨r.reviewId, "skipped", some "already_has_reply", none⟩
  else if (pyStrip r.userComment).isEmpty then ⟨r.reviewId, "skipped", some "no_comment", none⟩
  else
    match generate_response client_configured (model r) r.userComment r.rating with
    | none => ⟨r.reviewId, "failed", some "ai_generation_failed", none⟩
    | some t =>
      if dry_run then ⟨r.reviewId, "dry_run_success", none, some t⟩
      else
        match post r.reviewId t with
        | .ok => ⟨r.reviewId, "success", none, some t⟩
        | .fail => ⟨r.reviewId, "failed", some "api_post_failed", some t⟩
        | .exc msg => ⟨r.reviewId, "failed", some msg, none⟩

/-- The calls to `reply_to_review` the loop body makes for one review:
none when skipping, when generation fails, or in dry-run mode; exactly one
(with the validated text) in live mode. -/
def reviewDispatch (client_configured : Bool) (model : Review → ModelResult)
    (_post : String → List Char → PostResult) (dry_run : Bool) (r : Review) :
    List (String × List Char) :=
  if r.hasReply then []
  else if (pyStrip r.userComment).isEmpty then []
  else
    match generate_response client_configured (model r) r.userComment r.rating with
    | none => []
    | some t => if dry_run then [] else [(r.reviewId, t)]

/-- Status groups of the counter updates: `results["successful"] += 1`
happens exactly in the branches appending a `dry_run_success` or `success`
detail, and likewise for `failed` and `skipped` (reviews.py, lines 219-293). -/
def is_success_status (d : Detail) : Bool :=
  d.status == "dry_run_success" || d.status == "success"

def is_failed_status (d : Detail) : Bool := d.status == "failed"

def is_skipped_status (d : Detail) : Bool := d.status == "skipped"

/-- One iteration of the loop: counters incremented according to the
branch taken (equivalently, to the status of the appended detail), the
detail appended in order, dispatch calls recorded. -/
def stepReview (client_configured : Bool) (model : Review → ModelResult)
    (post : String → List Char → PostResult) (dry_run : Bool)
    (acc : RunResults) (r : Review) : RunResults :=
  let d := reviewDetail client_configured model post dry_run r
  { processed := acc.processed + 1
    successful := acc.successful + (if is_success_status d then 1 else 0)
    failed := acc.failed + (if is_failed_status d then 1 else 0)
    skipped := acc.skipped + (if is_skipped_status d then 1 else 0)
    details := acc.details ++ [d]
    dispatched := acc.dispatched ++ reviewDispatch client_configured model post dry_run r }

def run_init : RunResults := ⟨0, 0, 0, 0, [], []⟩

/-- `GooglePlayReviews.auto_reply_to_reviews` (reviews.py, lines 180-304).
`enable_ai` and `has_generator` model `self.enable_ai` and
`self.ai_generator`; their check (lines 191-192) raises before anything
else runs.  `reviews` is the list returned by the (successful)
`list_reviews` fetch; an empty fetch short-circuits (lines 199-201). -/
def auto_reply_to_reviews (enable_ai has_generator client_configured : Bool)
    (reviews : List Review) (model : Review → ModelResult)
    (post : String → List Char → PostResult) (dry_run : Bool) :
    Except String RunResults :=
  if !enable_ai || !has_generator then
    .error "AI is not enabled. Initialize with enable_ai=True"
  else if reviews.isEmpty then .ok run_init
  else .ok (reviews.foldl (stepReview client_configured model post dry_run) run_init)

/-! ## Backend variant: `backend/ai_response.py`, `backend/reviews.py` -/

/-- The `turkish_indicators` characters of the backend `detect_language`
(backend/ai_response.py, line 57). -/
def turkish_indicators : List Char :=
  ['ç', 'ğ', 'ı', 'ö', 'ş', 'ü', 'Ç', 'Ğ', 'İ', 'Ö', 'Ş', 'Ü']

/-- The `english_words` list of the backend `detect_language`
(backend/ai_response.py, line 63). -/
def english_words : List (List Char) :=
  ["the".toList, "and".toList, "is".toList, "in".toList, "to".toList,
   "of".toList, "a".toList, "that".toList, "it".toList, "with".toList]

/-- `AIResponseGenerator.detect_language` of the backend variant
(backend/ai_response.py, lines 47-71): Turkish if any Turkish character
occurs in the raw text, else `"en"` whether or not a common English word
occurs among the lowercased words. -/
def backend_detect_language (text : List Char) : String :=
  if turkish_indicators.any (fun c => text.contains c) then "tr"
  else
    let words := pySplit (pyLower text)
    if english_words.any (fun w => words.contains w) then "en"
    else "en"

/-- `AIResponseGenerator.generate_response` of the backend variant
(backend/ai_response.py, lines 72-124): fail when no API key is set or the
model call raises or returns empty text, otherwise return the stripped
model text — no content validation is performed in this variant. -/
def backend_generate_response (has_api_key : Bool) (mr : ModelResult) :
    Option (List Char) :=
  if !has_api_key then none
  else
    match mr with
    | .failure _ => none
    | .text t => if t.isEmpty then none else some (pyStrip t)

/-- One entry of the results list of the backend `auto_reply_to_reviews`
(backend/reviews.py, lines 139-190); the fields present vary by branch. -/
structure BDetail where
  review_id : String
  status : String
  reason : Option String
  rating : Option Int
  review_text : Option (List Char)
  ai_response : Option (List Char)
  error : Option String
deriving DecidableEq

/-- The body of the per-review loop of the backend
`auto_reply_to_reviews` (backend/reviews.py, lines 139-190).  The backend
`reply_to_review` returns `False` on `HttpError` instead of raising, so
`post .fail` covers that path; a non-`HttpError` exception propagates to
the per-review handler (`status = "error"`). -/
def backend_reviewResult (has_api_key : Bool) (model : Review → ModelResult)
    (post : String → List Char → PostResult) (dry_run : Bool) (r : Review) : BDetail :=
  if r.hasReply then
    ⟨r.reviewId, "skipped", some "Already has a reply", none, none, none, none⟩
  else if 5 ≤ r.rating then
    ⟨r.reviewId, "skipped", some "Positive review (5 stars)", none, none, none, none⟩
  else
    match backend_generate_response has_api_key (model r) with
    | none =>
      ⟨r.reviewId, "failed", some "Failed to generate AI response", none, none, none, none⟩
    | some t =>
      if !dry_run then
        match post r.reviewId t with
        | .ok => ⟨r.reviewId, "posted", none, some r.rating, some r.userComment, some t, none⟩
        | .fail => ⟨r.reviewId, "failed", none, some r.rating, some r.userComment, some t, none⟩
        | .exc msg => ⟨r.reviewId, "error", none, none, none, none, some msg⟩
      else ⟨r.reviewId, "preview", none, some r.rating, some r.userComment, some t, none⟩

/-- The calls to the backend `reply_to_review` made for one review. -/
def backend_reviewDispatch (has_api_key : Bool) (model : Review → ModelResult)
    (_post : String → List Char → PostResult) (dry_run : Bool) (r : Review) :
    List (String × List Char) :=
  if r.hasReply then []
  else if 5 ≤ r.rating then []
  else
    match backend_generate_response has_api_key (model r) with
    | none => []
    | some t => if !dry_run then [(r.reviewId, t)] else []

/-- `GooglePlayReviews.auto_reply_to_reviews` of the backend variant
(backend/reviews.py, lines 117-195): returns the per-review results list
(paired with the dispatch-call instrumentation). -/
def backend_auto_reply_to_reviews (enable_ai has_generator has_api_key : Bool)
    (reviews : List Review) (model : Review → ModelResult)
    (post : String → List Char → PostResult) (dry_run : Bool) :
    Except String (List BDetail × List (String × List Char)) :=
  if !enable_ai || !has_generator then
    .error "AI is not enabled or AI generator is not available"
  else
    .ok (reviews.map (backend_reviewResult has_api_key model post dry_run),
         reviews.flatMap (backend_reviewDispatch has_api_key model post dry_run))

/-! ## Helper lemmas about the string primitives -/

theorem containsSub_iff (needle hay : List Char) :
    containsSub needle hay = true ↔ needle <:+: hay := by
  induction hay with
  | nil => simp [containsSub, List.isEmpty_iff, List.infix_nil]
  | cons c rest ih =>
    simp [containsSub, List.isPrefixOf_iff_prefix, ih, List.infix_cons_iff]

theorem pyStrip_isInfix (l : List Char) : pyStrip l <:+: l :=
  (List.rdropWhile_prefix _ _).isInfix.trans (List.dropWhile_suffix _).isInfix

theorem pyStrip_length_le (l : List Char) : (pyStrip l).length ≤ l.length :=
  le_trans (List.rdropWhile_prefix isPySpace _).length_le
    (List.dropWhile_suffix isPySpace).length_le

theorem dropWhile_head_false {α : Type} (p : α → Bool) (x : α) (s : List α) :
    ∀ l : List α, List.dropWhile p l = x :: s → p x = false := by
  intro l
  induction l with
  | nil => intro h; simp at h
  | cons c t ih =>
    intro h
    rw [List.dropWhile_cons] at h
    by_cases hp : p c = true
    · exact ih (by rwa [if_pos hp] at h)
    · rw [if_neg hp] at h
      injection h with h1 _
      subst h1
      exact Bool.eq_false_iff.mpr hp

theorem dropWhile_pyStrip (l : List Char) :
    List.dropWhile isPySpace (pyStrip l) = pyStrip l := by
  unfold pyStrip
  obtain ⟨u, hu⟩ := List.rdropWhile_prefix isPySpace (List.dropWhile isPySpace l)
  cases hs : List.rdropWhile isPySpace (List.dropWhile isPySpace l) with
  | nil => simp
  | cons x s =>
    rw [hs] at hu
    have hA : List.dropWhile isPySpace l = x :: (s ++ u) := by
      rw [← hu]; simp
    have hx := dropWhile_head_false isPySpace x (s ++ u) l hA
    rw [List.dropWhile_cons, if_neg (by simp [hx])]

theorem pyStrip_idem (l : List Char) : pyStrip (pyStrip l) = pyStrip l := by
  have h := dropWhile_pyStrip l
  unfold pyStrip
  rw [show List.dropWhile isPySpace ((l.dropWhile isPySpace).rdropWhile isPySpace)
        = (l.dropWhile isPySpace).rdropWhile isPySpace from h,
      List.rdropWhile_idempotent]

/-! ## Helper lemmas about the validator -/

theorem truncate_response_of_le {r : List Char} (h : r.length ≤ 350) :
    truncate_response r = r := by
  unfold truncate_response
  rw [if_neg (by omega)]

theorem truncate_response_length_le (r : List Char) :
    (truncate_response r).length ≤ 350 := by
  unfold truncate_response
  by_cases h : 350 < r.length
  · rw [if_pos h]
    simp only [List.length_append, List.length_take, List.length_cons, List.length_nil]
    omega
  · rw [if_neg h]
    omega

/-- Destructor for a successful validation: the gates that must have
passed and the shape of the returned text. -/
theorem validate_eq_some {r : List Char} {lang : String} {v : List Char}
    (h : _validate_response r lang = some v) :
    r.isEmpty = false ∧
    forbidden_words.any
      (fun w => containsSub w (pyLower (truncate_response r))) = false ∧
    ¬ (pyStrip (truncate_response r)).length < 10 ∧
    v = pyStrip (truncate_response r) := by
  unfold _validate_response at h
  by_cases h1 : r.isEmpty
  · rw [if_pos h1] at h; exact absurd h (by simp)
  · rw [if_neg h1] at h
    by_cases h2 : forbidden_words.any
        (fun w => containsSub w (pyLower (truncate_response r))) = true
    · rw [if_pos h2] at h; exact absurd h (by simp)
    · rw [if_neg h2] at h
      by_cases h3 : (pyStrip (truncate_response r)).length < 10
      · rw [if_pos h3] at h; exact absurd h (by simp)
      · rw [if_neg h3] at h
        refine ⟨Bool.eq_false_iff.mpr h1, Bool.eq_false_iff.mpr h2, h3, ?_⟩
        exact (Option.some.injEq .. ▸ h).symm

theorem validate_some_length_le {r : List Char} {lang : String} {v : List Char}
    (h : _validate_response r lang = some v) : v.length ≤ 350 := by
  obtain ⟨-, -, -, hv⟩ := validate_eq_some h
  rw [hv]
  exact le_trans (pyStrip_length_le _) (truncate_response_length_le r)

/-- No forbidden word survives into a validated text: the returned text is
an infix of the scanned (truncated) text, and the scan came back clean. -/
theorem forbidden_not_in_validated {r : List Char} {lang : String} {v : List Char}
    (h : _validate_response r lang = some v) :
    ∀ w ∈ forbidden_words, containsSub w (pyLower v) = false := by
  obtain ⟨-, h2, -, hv⟩ := validate_eq_some h
  intro w hw
  by_contra hc
  have hc' : containsSub w (pyLower v) = true := by
    cases hcv : containsSub w (pyLower v)
    · exact absurd hcv hc
    · rfl
  have hwv : w <:+: pyLower v := (containsSub_iff _ _).mp hc'
  have hvi : pyLower v <:+: pyLower (truncate_response r) := by
    rw [hv]
    exact List.IsInfix.map pyCharLower (pyStrip_isInfix _)
  have hfalse : containsSub w (pyLower (truncate_response r)) = false := by
    rw [List.any_eq_false] at h2
    simpa using h2 w hw
  have htrue : containsSub w (pyLower (truncate_response r)) = true :=
    (containsSub_iff _ _).mpr (hwv.trans hvi)
  rw [htrue] at hfalse
  exact absurd hfalse (by simp)

/-- Claim C2 (amended): every validated text has length at most 350; and a
400-character raw response that passes the remaining gates and does not
begin with whitespace is truncated to exactly 350 characters ending in the
ellipsis marker `"..."`.  (Without the leading-whitespace proviso the final
trim can shorten the result below 350 — see the counterexample.) -/
theorem claim_C2 :
    (∀ (r : List Char) (lang : String) (v : List Char),
      _validate_response r lang = some v → v.length ≤ 350) ∧
    (∀ (r : List Char) (lang : String) (v : List Char) (c : Char),
      r.length = 400 → r.head? = some c → isPySpace c = false →
      _validate_response r lang = some v →
      v.length = 350 ∧ ['.', '.', '.'] <:+ v) := by
  constructor
  · intro r lang v h
    exact validate_some_length_le h
  · intro r lang v c hlen hhead hc h
    obtain ⟨-, -, -, hv⟩ := validate_eq_some h
    obtain ⟨x, t, rfl⟩ : ∃ x t, r = x :: t := by
      cases r with
      | nil => simp at hlen
      | cons x t => exact ⟨x, t, rfl⟩
    have hx : x = c := by simpa using hhead
    subst hx
    have htr : truncate_response (x :: t) = x :: (t.take 346 ++ ['.', '.', '.']) := by
      unfold truncate_response
      rw [if_pos (by omega), List.take_succ_cons, List.cons_append]
    have hdrop : List.dropWhile isPySpace (truncate_response (x :: t))
        = truncate_response (x :: t) := by
      rw [htr, List.dropWhile_cons, if_neg (by simp [hc])]
    have hrdrop : List.rdropWhile isPySpace (truncate_response (x :: t))
        = truncate_response (x :: t) := by
      rw [htr]
      have : x :: (t.take 346 ++ ['.', '.', '.'])
          = (x :: (t.take 346 ++ ['.', '.'])) ++ ['.'] := by simp
      rw [this, List.rdropWhile_concat_neg _ _ _ (by decide), ← this]
    have hstrip : pyStrip (truncate_response (x :: t)) = truncate_response (x :: t) := by
      unfold pyStrip
      rw [hdrop, hrdrop]
    have ht : t.length = 399 := by simpa using hlen
    rw [hv, hstrip, htr]
    constructor
    · simp only [List.length_cons, List.length_append, List.length_take,
        List.length_nil]
      omega
    · exact ⟨x :: t.take 346, by simp⟩

/-- Claim C2 counterexample: a 400-character raw response that begins with
a space passes every gate, yet the validator returns 349 characters, not
exactly 350 — the final `strip()` removes the leading space after
truncation.  This falsifies the unconditional "exactly 350" reading. -/
theorem claim_C2_counterexample :
    (' ' :: List.replicate 399 'a').length = 400 ∧
    _validate_response (' ' :: List.replicate 399 'a') "en"
      = some (List.replicate 346 'a' ++ ['.', '.', '.']) ∧
    (List.replicate 346 'a' ++ ['.', '.', '.']).length = 349 := by
  refine ⟨by decide, by decide, by decide⟩

/-- Claim C2 witness: the amended theorem applied to the 400-character
all-`a` input. -/
theorem claim_C2_witness :
    (List.replicate 347 'a' ++ ['.', '.', '.']).length = 350 ∧
    ['.', '.', '.'] <:+ (List.replicate 347 'a' ++ ['.', '.', '.']) :=
  claim_C2.2 (List.replicate 400 'a') "en"
    (List.replicate 347 'a' ++ ['.', '.', '.']) 'a'
    (by decide) (by decide) (by decide) (by decide)

/-- Claim C3: whenever the (possibly truncated) response contains a
forbidden word as a case-insensitive substring the validator rejects the
whole response; consequently a validated text never contains a forbidden
term; and the concrete sentence "Sorry for the inconvenience, we'll fix it
soon" is rejected. -/
theorem claim_C3 :
    (∀ (r : List Char) (lang : String),
      (∃ w ∈ forbidden_words,
        containsSub w (pyLower (truncate_response r)) = true) →
      _validate_response r lang = none) ∧
    (∀ (r : List Char) (lang : String) (v : List Char),
      _validate_response r lang = some v →
      ∀ w ∈ forbidden_words, containsSub w (pyLower v) = false) ∧
    _validate_response
      ("Sorry for the inconvenience, we".toList ++ [Char.ofNat 39]
        ++ "ll fix it soon".toList) "en" = none := by
  refine ⟨?_, ?_, by decide⟩
  · intro r lang hw
    obtain ⟨w, hwmem, hwsub⟩ := hw
    unfold _validate_response
    by_cases h1 : r.isEmpty
    · rw [if_pos h1]
    · rw [if_neg h1, if_pos (List.any_eq_true.mpr ⟨w, hwmem, hwsub⟩)]
  · intro r lang v h
    exact forbidden_not_in_validated h

/-- Claim C3 witness: the rejection half applied to a concrete response
containing the forbidden word "terrible". -/
theorem claim_C3_witness :
    _validate_response ("What a Terrible experience this was".toList) "en" = none :=
  claim_C3.1 ("What a Terrible experience this was".toList) "en"
    ⟨"terrible".toList, by decide, by decide⟩

/-- Claim C10: validation is idempotent — a validated text passes every
gate unchanged: it is at most 350 characters (so no further truncation),
free of forbidden terms, already stripped of surrounding whitespace, and
validating it again returns it unchanged. -/
theorem claim_C10 :
    ∀ (r : List Char) (lang : String) (v : List Char),
      _validate_response r lang = some v →
      v.length ≤ 350 ∧ pyStrip v = v ∧ _validate_response v lang = some v := by
  intro r lang v h
  obtain ⟨-, hforb, hlen, hv⟩ := validate_eq_some h
  have hle : v.length ≤ 350 := validate_some_length_le h
  have hstrip : pyStrip v = v := by
    rw [hv]
    exact pyStrip_idem _
  have htr : truncate_response v = v := truncate_response_of_le hle
  have hvlen : 10 ≤ v.length := by
    rw [hv]
    omega
  refine ⟨hle, hstrip, ?_⟩
  unfold _validate_response
  rw [if_neg (by
        intro hemp
        rw [List.isEmpty_iff] at hemp
        rw [hemp] at hvlen
        simp at hvlen)]
  rw [htr]
  rw [if_neg (by
        intro hany
        obtain ⟨w, hwmem, hwsub⟩ := List.any_eq_true.mp hany
        have := forbidden_not_in_validated h w hwmem
        rw [this] at hwsub
        exact absurd hwsub (by simp))]
  rw [hstrip, if_neg (by omega)]

/-- Claim C10 witness: idempotence applied to a concrete response that
validates to itself. -/
theorem claim_C10_witness :
    ("Thanks for your feedback!".toList).length ≤ 350 ∧
    pyStrip ("Thanks for your feedback!".toList) = "Thanks for your feedback!".toList ∧
    _validate_response ("Thanks for your feedback!".toList) "en"
      = some ("Thanks for your feedback!".toList) :=
  claim_C10 ("Thanks for your feedback!".toList) "en"
    ("Thanks for your feedback!".toList) (by decide)

/-! ## Language detection claims -/

/-- The ordered (language, keyword-set) table the spec describes for the
canonical detector, in its stated priority order. -/
def language_priority_table : List (String × List (List Char)) :=
  [("tr", turkish_keywords), ("es", spanish_keywords), ("fr", french_keywords),
   ("de", german_keywords), ("ru", russian_keywords),
   ("id", indonesian_keywords), ("fa", persian_keywords)]

/-- The spec's formulation of detection ("the first language whose keyword
set intersects the lowercased text wins, default en"), for comparison with
the source's `detect_language`. -/
def detect_language_spec (text : List Char) : String :=
  ((language_priority_table.find?
      (fun p => p.2.any (fun w => containsSub w (pyLower text)))).map
    (fun p => p.1)).getD "en"

/-- Claim C7 (amended): the CLI detector `detect_language` is the spec's
ordered first-match scan over {tr, es, fr, de, ru, id, fa} with default en
— total, deterministic, Turkish before Spanish; but the backend variant
`backend_detect_language` implements a different heuristic (Turkish
characters, else always en), so the repository's two cited detectors
disagree. -/
theorem claim_C7 :
    (∀ t : List Char, detect_language t = detect_language_spec t) ∧
    (∀ t : List Char,
      detect_language t ∈ ["tr", "es", "fr", "de", "ru", "id", "fa", "en"]) ∧
    detect_language [] = "en" ∧
    (∀ t : List Char,
      turkish_keywords.any (fun w => containsSub w (pyLower t)) = true →
      detect_language t = "tr") ∧
    detect_language ("çok güzel".toList) = "tr" ∧
    detect_language ("muy bueno".toList) = "es" ∧
    detect_language ("muy güzel".toList) = "tr" ∧
    (∀ t : List Char,
      backend_detect_language t = "tr" ∨ backend_detect_language t = "en") := by
  refine ⟨?_, ?_, by decide, ?_, by decide, by decide, by decide, ?_⟩
  · intro t
    unfold detect_language detect_language_spec language_priority_table
    by_cases h1 : turkish_keywords.any (fun w => containsSub w (pyLower t)) = true
    · rw [if_pos h1, List.find?_cons_of_pos _ (by simpa using h1)]; rfl
    · rw [if_neg h1, List.find?_cons_of_neg _ (by simpa using h1)]
      by_cases h2 : spanish_keywords.any (fun w => containsSub w (pyLower t)) = true
      · rw [if_pos h2, List.find?_cons_of_pos _ (by simpa using h2)]; rfl
      · rw [if_neg h2, List.find?_cons_of_neg _ (by simpa using h2)]
        by_cases h3 : french_keywords.any (fun w => containsSub w (pyLower t)) = true
        · rw [if_pos h3, List.find?_cons_of_pos _ (by simpa using h3)]; rfl
        · rw [if_neg h3, List.find?_cons_of_neg _ (by simpa using h3)]
          by_cases h4 : german_keywords.any (fun w => containsSub w (pyLower t)) = true
          · rw [if_pos h4, List.find?_cons_of_pos _ (by simpa using h4)]; rfl
          · rw [if_neg h4, List.find?_cons_of_neg _ (by simpa using h4)]
            by_cases h5 : russian_keywords.any (fun w => containsSub w (pyLower t)) = true
            · rw [if_pos h5, List.find?_cons_of_pos _ (by simpa using h5)]; rfl
            · rw [if_neg h5, List.find?_cons_of_neg _ (by simpa using h5)]
              by_cases h6 : indonesian_keywords.any (fun w => containsSub w (pyLower t)) = true
              · rw [if_pos h6, List.find?_cons_of_pos _ (by simpa using h6)]; rfl
              · rw [if_neg h6, List.find?_cons_of_neg _ (by simpa using h6)]
                by_cases h7 : persian_keywords.any (fun w => containsSub w (pyLower t)) = true
                · rw [if_pos h7, List.find?_cons_of_pos _ (by simpa using h7)]; rfl
                · rw [if_neg h7, List.find?_cons_of_neg _ (by simpa using h7)]; rfl
  · intro t
    unfold detect_language
    repeat' split
    all_goals decide
  · intro t h1
    unfold detect_language
    rw [if_pos h1]
  · intro t
    unfold backend_detect_language
    repeat' split
    all_goals simp

/-- Claim C7 counterexample: "muy bueno" contains the Spanish keyword
"muy" and no Turkish keyword, so the claimed ordered scan yields "es" —
the CLI detector does — but the backend detector cited by the claim
returns "en". -/
theorem claim_C7_counterexample :
    ("muy".toList) ∈ spanish_keywords ∧
    containsSub ("muy".toList) (pyLower ("muy bueno".toList)) = true ∧
    turkish_keywords.all
      (fun w => !containsSub w (pyLower ("muy bueno".toList))) = true ∧
    detect_language ("muy bueno".toList) = "es" ∧
    backend_detect_language ("muy bueno".toList) = "en" := by
  refine ⟨by decide, by decide, by decide, by decide, by decide⟩

/-- Claim C7 witness: the priority conjunct applied to a text containing
both a Turkish and a Spanish keyword. -/
theorem claim_C7_witness :
    detect_language ("muy güzel bir uygulama".toList) = "tr" :=
  claim_C7.2.2.2.1 ("muy güzel bir uygulama".toList) (by decide)

/-- Claim C8: the rating → policy lookup
`response_rules.get(rating, "neutral_improvement")` is a pure total
function: 1 and 2 map to apologize_and_support, 3 to neutral_improvement,
4 and 5 to thank_and_engage, and every rating outside 1-5 to the default
neutral_improvement. -/
theorem claim_C8 :
    response_rules_get 1 = "apologize_and_support" ∧
    response_rules_get 2 = "apologize_and_support" ∧
    response_rules_get 3 = "neutral_improvement" ∧
    response_rules_get 4 = "thank_and_engage" ∧
    response_rules_get 5 = "thank_and_engage" ∧
    (∀ n : Int, n < 1 ∨ 5 < n → response_rules_get n = "neutral_improvement") := by
  refine ⟨by decide, by decide, by decide, by decide, by decide, ?_⟩
  intro n hn
  unfold response_rules_get response_rules
  rw [List.find?_cons_of_neg _ (by simp; omega),
      List.find?_cons_of_neg _ (by simp; omega),
      List.find?_cons_of_neg _ (by simp; omega),
      List.find?_cons_of_neg _ (by simp; omega),
      List.find?_cons_of_neg _ (by simp; omega)]
  rfl

/-- Claim C8 witness: the out-of-range conjunct applied to ratings 0 and 6. -/
theorem claim_C8_witness :
    response_rules_get 0 = "neutral_improvement" ∧
    response_rules_get 6 = "neutral_improvement" :=
  ⟨claim_C8.2.2.2.2.2 0 (Or.inl (by decide)),
   claim_C8.2.2.2.2.2 6 (Or.inr (by decide))⟩

/-! ## Helper lemmas about the CLI orchestrator fold -/

/-- The run result of a (successful-fetch, AI-enabled) run over a batch. -/
def runResults (client_configured : Bool) (model : Review → ModelResult)
    (post : String → List Char → PostResult) (dry_run : Bool)
    (reviews : List Review) : RunResults :=
  reviews.foldl (stepReview client_configured model post dry_run) run_init

theorem auto_reply_enabled_eq (client_configured : Bool)
    (model : Review → ModelResult) (post : String → List Char → PostResult)
    (dry_run : Bool) (reviews : List Review) :
    auto_reply_to_reviews true true client_configured reviews model post dry_run
      = .ok (runResults client_configured model post dry_run reviews) := by
  unfold auto_reply_to_reviews runResults
  cases reviews <;> simp [run_init]

theorem runFold_details (client_configured : Bool) (model : Review → ModelResult)
    (post : String → List Char → PostResult) (dry_run : Bool) :
    ∀ (rs : List Review) (acc : RunResults),
      (rs.foldl (stepReview client_configured model post dry_run) acc).details
        = acc.details ++ rs.map (reviewDetail client_configured model post dry_run) := by
  intro rs
  induction rs with
  | nil => intro acc; simp
  | cons r rest ih =>
    intro acc
    simp only [List.foldl_cons, List.map_cons, ih, stepReview]
    simp

theorem runFold_processed (client_configured : Bool) (model : Review → ModelResult)
    (post : String → List Char → PostResult) (dry_run : Bool) :
    ∀ (rs : List Review) (acc : RunResults),
      (rs.foldl (stepReview client_configured model post dry_run) acc).processed
        = acc.processed + rs.length := by
  intro rs
  induction rs with
  | nil => intro acc; simp
  | cons r rest ih =>
    intro acc
    simp only [List.foldl_cons, List.length_cons, ih, stepReview]
    omega

theorem runFold_dispatched (client_configured : Bool) (model : Review → ModelResult)
    (post : String → List Char → PostResult) (dry_run : Bool) :
    ∀ (rs : List Review) (acc : RunResults),
      (rs.foldl (stepReview client_configured model post dry_run) acc).dispatched
        = acc.dispatched
          ++ rs.flatMap (reviewDispatch client_configured model post dry_run) := by
  intro rs
  induction rs with
  | nil => intro acc; simp
  | cons r rest ih =>
    intro acc
    simp only [List.foldl_cons, List.flatMap_cons, ih, stepReview]
    simp

theorem runFold_successful (client_configured : Bool) (model : Review → ModelResult)
    (post : String → List Char → PostResult) (dry_run : Bool) :
    ∀ (rs : List Review) (acc : RunResults),
      (rs.foldl (stepReview client_configured model post dry_run) acc).successful
        = acc.successful
          + (rs.map (reviewDetail client_configured model post dry_run)).countP
              is_success_status := by
  intro rs
  induction rs with
  | nil => intro acc; simp
  | cons r rest ih =>
    intro acc
    simp only [List.foldl_cons, List.map_cons, List.countP_cons, ih, stepReview]
    cases hs : is_success_status (reviewDetail client_configured model post dry_run r)
    all_goals simp
    all_goals omega

theorem runFold_failed (client_configured : Bool) (model : Review → ModelResult)
    (post : String → List Char → PostResult) (dry_run : Bool) :
    ∀ (rs : List Review) (acc : RunResults),
      (rs.foldl (stepReview client_configured model post dry_run) acc).failed
        = acc.failed
          + (rs.map (reviewDetail client_configured model post dry_run)).countP
              is_failed_status := by
  intro rs
  induction rs with
  | nil => intro acc; simp
  | cons r rest ih =>
    intro acc
    simp only [List.foldl_cons, List.map_cons, List.countP_cons, ih, stepReview]
    cases hs : is_failed_status (reviewDetail client_configured model post dry_run r)
    all_goals simp
    all_goals omega

theorem runFold_skipped (client_configured : Bool) (model : Review → ModelResult)
    (post : String → List Char → PostResult) (dry_run : Bool) :
    ∀ (rs : List Review) (acc : RunResults),
      (rs.foldl (stepReview client_configured model post dry_run) acc).skipped
        = acc.skipped
          + (rs.map (reviewDetail client_configured model post dry_run)).countP
              is_skipped_status := by
  intro rs
  induction rs with
  | nil => intro acc; simp
  | cons r rest ih =>
    intro acc
    simp only [List.foldl_cons, List.map_cons, List.countP_cons, ih, stepReview]
    cases hs : is_skipped_status (reviewDetail client_configured model post dry_run r)
    all_goals simp
    all_goals omega

theorem runResults_details (client_configured : Bool) (model : Review → ModelResult)
    (post : String → List Char → PostResult) (dry_run : Bool) (rs : List Review) :
    (runResults client_configured model post dry_run rs).details
      = rs.map (reviewDetail client_configured model post dry_run) := by
  unfold runResults
  rw [runFold_details]
  simp [run_init]

theorem runResults_processed (client_configured : Bool) (model : Review → ModelResult)
    (post : String → List Char → PostResult) (dry_run : Bool) (rs : List Review) :
    (runResults client_configured model post dry_run rs).processed = rs.length := by
  unfold runResults
  rw [runFold_processed]
  simp [run_init]

theorem runResults_dispatched (client_configured : Bool) (model : Review → ModelResult)
    (post : String → List Char → PostResult) (dry_run : Bool) (rs : List Review) :
    (runResults client_configured model post dry_run rs).dispatched
      = rs.flatMap (reviewDispatch client_configured model post dry_run) := by
  unfold runResults
  rw [runFold_dispatched]
  simp [run_init]

theorem runResults_successful (client_configured : Bool) (model : Review → ModelResult)
    (post : String → List Char → PostResult) (dry_run : Bool) (rs : List Review) :
    (runResults client_configured model post dry_run rs).successful
      = (runResults client_configured model post dry_run rs).details.countP
          is_success_status := by
  unfold runResults
  rw [runFold_successful, runFold_details]
  simp [run_init]

theorem runResults_failed (client_configured : Bool) (model : Review → ModelResult)
    (post : String → List Char → PostResult) (dry_run : Bool) (rs : List Review) :
    (runResults client_configured model post dry_run rs).failed
      = (runResults client_configured model post dry_run rs).details.countP
          is_failed_status := by
  unfold runResults
  rw [runFold_failed, runFold_details]
  simp [run_init]

theorem runResults_skipped (client_configured : Bool) (model : Review → ModelResult)
    (post : String → List Char → PostResult) (dry_run : Bool) (rs : List Review) :
    (runResults client_configured model post dry_run rs).skipped
      = (runResults client_configured model post dry_run rs).details.countP
          is_skipped_status := by
  unfold runResults
  rw [runFold_skipped, runFold_details]
  simp [run_init]

/-- In dry-run mode the loop body makes no dispatch call for any review. -/
theorem reviewDispatch_dry (client_configured : Bool) (model : Review → ModelResult)
    (post : String → List Char → PostResult) (r : Review) :
    reviewDispatch client_configured model post true r = [] := by
  unfold reviewDispatch
  by_cases h1 : r.hasReply = true
  · rw [if_pos h1]
  · rw [if_neg h1]
    by_cases h2 : (pyStrip r.userComment).isEmpty = true
    · rw [if_pos h2]
    · rw [if_neg h2]
      cases generate_response client_configured (model r) r.userComment r.rating <;> simp

/-- In dry-run mode the backend loop body makes no dispatch call either. -/
theorem backend_reviewDispatch_dry (has_api_key : Bool)
    (model : Review → ModelResult) (post : String → List Char → PostResult)
    (r : Review) :
    backend_reviewDispatch has_api_key model post true r = [] := by
  unfold backend_reviewDispatch
  by_cases h1 : r.hasReply = true
  · rw [if_pos h1]
  · rw [if_neg h1]
    by_cases h2 : 5 ≤ r.rating
    · rw [if_pos h2]
    · rw [if_neg h2]
      cases backend_generate_response has_api_key (model r) <;> simp

/-! ## Orchestrator claims -/

/-- Claim C1 (amended): in the CLI orchestrator (`reviews.py`) a review's
outcome is skipped iff it already has a developer reply or its text is
empty/whitespace-only — independent of rating; but in the backend
orchestrator (`backend/reviews.py`), also cited by the claim, a review
with no reply and non-empty text is additionally skipped whenever its
rating is at least 5, and a review with rating below 5 and no reply is
never skipped (empty text is not a skip condition there). -/
theorem claim_C1 :
    (∀ (client_configured : Bool) (model : Review → ModelResult)
       (post : String → List Char → PostResult) (dry_run : Bool) (r : Review),
      (reviewDetail client_configured model post dry_run r).status = "skipped"
        ↔ (r.hasReply = true ∨ pyStrip r.userComment = [])) ∧
    (∀ (has_api_key : Bool) (model : Review → ModelResult)
       (post : String → List Char → PostResult) (dry_run : Bool) (r : Review),
      r.hasReply = false → 5 ≤ r.rating →
      (backend_reviewResult has_api_key model post dry_run r).status = "skipped") ∧
    (∀ (has_api_key : Bool) (model : Review → ModelResult)
       (post : String → List Char → PostResult) (dry_run : Bool) (r : Review),
      r.hasReply = false → r.rating < 5 →
      (backend_reviewResult has_api_key model post dry_run r).status ≠ "skipped") := by
  refine ⟨?_, ?_, ?_⟩
  · intro client_configured model post dry_run r
    unfold reviewDetail
    by_cases h1 : r.hasReply = true
    · simp [h1]
    · rw [if_neg h1]
      by_cases h2 : (pyStrip r.userComment).isEmpty = true
      · rw [if_pos h2]
        simp [h1, List.isEmpty_iff.mp h2]
      · rw [if_neg h2]
        have h2' : ¬ pyStrip r.userComment = [] := fun he => h2 (by simp [he])
        have hR : ¬ (r.hasReply = true ∨ pyStrip r.userComment = []) := by
          rintro (h | h)
          · exact h1 h
          · exact h2' h
        simp only [hR, iff_false]
        cases hg : generate_response client_configured (model r) r.userComment r.rating with
        | none => simp
        | some t =>
          cases dry_run with
          | true => simp
          | false => cases hp : post r.reviewId t <;> simp [hp]
  · intro has_api_key model post dry_run r h1 h5
    unfold backend_reviewResult
    rw [if_neg (by simp [h1]), if_pos h5]
  · intro has_api_key model post dry_run r h1 h5
    unfold backend_reviewResult
    rw [if_neg (by simp [h1]), if_neg (by omega)]
    cases hb : backend_generate_response has_api_key (model r) with
    | none => simp [hb]
    | some t =>
      cases dry_run with
      | true => simp [hb]
      | false => cases hp : post r.reviewId t <;> simp [hb, hp]

/-- Claim C1 counterexample: a 5-star review with no developer reply and
non-empty text is skipped by the backend orchestrator (reason "Positive
review (5 stars)"), so the outcome is not independent of rating and the
claimed iff fails on the cited backend code. -/
theorem claim_C1_counterexample :
    pyStrip ("Great but needs work".toList) ≠ [] ∧
    backend_auto_reply_to_reviews true true true
        [⟨"r5", 5, "Great but needs work".toList, false⟩]
        (fun _ => ModelResult.text []) (fun _ _ => PostResult.ok) true
      = .ok ([⟨"r5", "skipped", some "Positive review (5 stars)",
              none, none, none, none⟩], []) := by
  refine ⟨by decide, by rfl⟩

/-- Claim C1 witness: the CLI iff applied to a non-skipped review, and the
backend rating-skip conjunct applied to a concrete 5-star review. -/
theorem claim_C1_witness :
    (reviewDetail true (fun _ => ModelResult.failure "x")
        (fun _ _ => PostResult.ok) true
        ⟨"w1", 5, "meh app but fine".toList, false⟩).status ≠ "skipped" ∧
    (backend_reviewResult true (fun _ => ModelResult.text [])
        (fun _ _ => PostResult.ok) true
        ⟨"w2", 5, "good".toList, false⟩).status = "skipped" := by
  constructor
  · intro hs
    rcases (claim_C1.1 true (fun _ => ModelResult.failure "x")
        (fun _ _ => PostResult.ok) true
        ⟨"w1", 5, "meh app but fine".toList, false⟩).mp hs with h | h
    · exact absurd h (by decide)
    · exact absurd h (by decide)
  · exact claim_C1.2.1 true (fun _ => ModelResult.text [])
      (fun _ _ => PostResult.ok) true
      ⟨"w2", 5, "good".toList, false⟩ rfl (by decide)

/-- Claim C4: per-review failures are isolated — the loop always returns
a summary (never aborts once AI is enabled), each review's outcome is a
function of that review alone (the detail list is a `map` over the
batch, so the other N−1 outcomes are unaffected and all reported), a model
exception is absorbed into a `none` generation result, and a failed
generation yields the failed / ai_generation_failed outcome. -/
theorem claim_C4 :
    ∀ (client_configured : Bool) (model : Review → ModelResult)
      (post : String → List Char → PostResult) (dry_run : Bool)
      (reviews : List Review),
      auto_reply_to_reviews true true client_configured reviews model post dry_run
        = .ok (runResults client_configured model post dry_run reviews) ∧
      (runResults client_configured model post dry_run reviews).processed
        = reviews.length ∧
      (runResults client_configured model post dry_run reviews).details
        = reviews.map (reviewDetail client_configured model post dry_run) ∧
      (∀ (msg : String) (t : List Char) (rating : Int),
        generate_response client_configured (ModelResult.failure msg) t rating
          = none) ∧
      (∀ r ∈ reviews, r.hasReply = false → pyStrip r.userComment ≠ [] →
        generate_response client_configured (model r) r.userComment r.rating = none →
        reviewDetail client_configured model post dry_run r
          = ⟨r.reviewId, "failed", some "ai_generation_failed", none⟩) := by
  intro client_configured model post dry_run reviews
  refine ⟨auto_reply_enabled_eq _ _ _ _ _, runResults_processed _ _ _ _ _,
    runResults_details _ _ _ _ _, ?_, ?_⟩
  · intro msg t rating
    cases client_configured <;> rfl
  · intro r hr h1 h2 hg
    unfold reviewDetail
    rw [if_neg (by simp [h1]), if_neg (by simpa using h2), hg]

/-- Claim C4 witness: a two-review batch where the first review's model
call raises; its outcome is failed / ai_generation_failed while the full
batch is still processed. -/
theorem claim_C4_witness :
    reviewDetail true (fun _ => ModelResult.failure "boom")
        (fun _ _ => PostResult.ok) true ⟨"r1", 1, "Bad app".toList, false⟩
      = ⟨"r1", "failed", some "ai_generation_failed", none⟩ ∧
    (runResults true (fun _ => ModelResult.failure "boom")
        (fun _ _ => PostResult.ok) true
        [⟨"r1", 1, "Bad app".toList, false⟩,
         ⟨"r2", 2, "Slow app".toList, false⟩]).processed = 2 := by
  constructor
  · exact (claim_C4 true (fun _ => ModelResult.failure "boom")
        (fun _ _ => PostResult.ok) true
        [⟨"r1", 1, "Bad app".toList, false⟩]).2.2.2.2
      ⟨"r1", 1, "Bad app".toList, false⟩ (by simp) rfl (by decide) rfl
  · have h := (claim_C4 true (fun _ => ModelResult.failure "boom")
        (fun _ _ => PostResult.ok) true
        [⟨"r1", 1, "Bad app".toList, false⟩,
         ⟨"r2", 2, "Slow app".toList, false⟩]).2.1
    simpa using h

/-- Claim C5: in dry-run mode no dispatch call is ever made (in either
orchestrator variant), a review whose generated response passes validation
gets the terminal dry-run preview outcome carrying the response, and the
summary's successful counter counts exactly those preview/success
outcomes. -/
theorem claim_C5 :
    (∀ (client_configured : Bool) (model : Review → ModelResult)
       (post : String → List Char → PostResult) (rs : List Review),
      (runResults client_configured model post true rs).dispatched = []) ∧
    (∀ (client_configured : Bool) (model : Review → ModelResult)
       (post : String → List Char → PostResult) (rs : List Review),
      auto_reply_to_reviews true true client_configured rs model post true
        = .ok (runResults client_configured model post true rs)) ∧
    (∀ (client_configured : Bool) (model : Review → ModelResult)
       (post : String → List Char → PostResult) (r : Review) (t : List Char),
      r.hasReply = false → pyStrip r.userComment ≠ [] →
      generate_response client_configured (model r) r.userComment r.rating = some t →
      reviewDetail client_configured model post true r
        = ⟨r.reviewId, "dry_run_success", none, some t⟩) ∧
    (∀ (client_configured : Bool) (model : Review → ModelResult)
       (post : String → List Char → PostResult) (rs : List Review),
      (runResults client_configured model post true rs).successful
        = (runResults client_configured model post true rs).details.countP
            is_success_status) ∧
    (∀ (has_api_key : Bool) (model : Review → ModelResult)
       (post : String → List Char → PostResult) (rs : List Review),
      backend_auto_reply_to_reviews true true has_api_key rs model post true
        = .ok (rs.map (backend_reviewResult has_api_key model post true), [])) := by
  refine ⟨?_, ?_, ?_, ?_, ?_⟩
  · intro client_configured model post rs
    rw [runResults_dispatched]
    induction rs with
    | nil => rfl
    | cons r rest ih =>
      rw [List.flatMap_cons, reviewDispatch_dry, List.nil_append, ih]
  · intro client_configured model post rs
    exact auto_reply_enabled_eq _ _ _ _ _
  · intro client_configured model post r t h1 h2 hg
    unfold reviewDetail
    rw [if_neg (by simp [h1]), if_neg (by simpa using h2), hg]
    rfl
  · intro client_configured model post rs
    exact runResults_successful _ _ _ _ _
  · intro has_api_key model post rs
    unfold backend_auto_reply_to_reviews
    have hflat : rs.flatMap (backend_reviewDispatch has_api_key model post true) = [] := by
      induction rs with
      | nil => rfl
      | cons r rest ih =>
        rw [List.flatMap_cons, backend_reviewDispatch_dry, List.nil_append, ih]
    simp [hflat]

/-- Claim C5 witness: the end-to-end dry-run example — a 1-star crash
review whose generated response validates produces the summary
{processed 1, successful 1, failed 0, skipped 0}, a dry_run_success
outcome, and an empty dispatch trace. -/
theorem claim_C5_witness :
    (runResults true
        (fun _ => ModelResult.text ("We will improve this soon. Thanks a lot!".toList))
        (fun _ _ => PostResult.ok) true
        [⟨"e2e", 1, "App crashes constantly".toList, false⟩]).dispatched = [] ∧
    reviewDetail true
        (fun _ => ModelResult.text ("We will improve this soon. Thanks a lot!".toList))
        (fun _ _ => PostResult.ok) true
        ⟨"e2e", 1, "App crashes constantly".toList, false⟩
      = ⟨"e2e", "dry_run_success", none,
         some ("We will improve this soon. Thanks a lot!".toList)⟩ ∧
    runResults true
        (fun _ => ModelResult.text ("We will improve this soon. Thanks a lot!".toList))
        (fun _ _ => PostResult.ok) true
        [⟨"e2e", 1, "App crashes constantly".toList, false⟩]
      = ⟨1, 1, 0, 0,
         [⟨"e2e", "dry_run_success", none,
           some ("We will improve this soon. Thanks a lot!".toList)⟩], []⟩ := by
  refine ⟨claim_C5.1 true _ _ _,
    claim_C5.2.2.1 true _ _ _ _ rfl (by decide) (by decide), by decide⟩

/-- Claim C6 (amended): when the validator rejects a generated response,
`generate_response` returns `None` and the orchestrator records the
outcome as failed with reason ai_generation_failed — exactly the outcome
of a model-call failure, so the run summary does not distinguish a
validation rejection from a generation failure; the specific gate is only
logged, never carried in the outcome. -/
theorem claim_C6 :
    (∀ (t review_text : List Char) (rating : Int),
      _validate_response (pyStrip t) (detect_language review_text) = none →
      generate_response true (ModelResult.text t) review_text rating = none) ∧
    (∀ (model : Review → ModelResult) (post : String → List Char → PostResult)
       (dry_run : Bool) (r : Review) (t : List Char),
      r.hasReply = false → pyStrip r.userComment ≠ [] →
      model r = ModelResult.text t →
      _validate_response (pyStrip t) (detect_language r.userComment) = none →
      reviewDetail true model post dry_run r
        = ⟨r.reviewId, "failed", some "ai_generation_failed", none⟩) ∧
    (∀ (client_configured : Bool) (model : Review → ModelResult)
       (post : String → List Char → PostResult) (dry_run : Bool)
       (r : Review) (msg : String),
      r.hasReply = false → pyStrip r.userComment ≠ [] →
      model r = ModelResult.failure msg →
      reviewDetail client_configured model post dry_run r
        = ⟨r.reviewId, "failed", some "ai_generation_failed", none⟩) := by
  refine ⟨?_, ?_, ?_⟩
  · intro t review_text rating hval
    simp [generate_response, hval]
  · intro model post dry_run r t h1 h2 hmr hval
    unfold reviewDetail
    rw [if_neg (by simp [h1]), if_neg (by simpa using h2)]
    have hg : generate_response true (model r) r.userComment r.rating = none := by
      rw [hmr]
      simp [generate_response, hval]
    rw [hg]
  · intro client_configured model post dry_run r msg h1 h2 hmr
    unfold reviewDetail
    rw [if_neg (by simp [h1]), if_neg (by simpa using h2)]
    have hg : generate_response client_configured (model r) r.userComment r.rating
        = none := by
      rw [hmr]
      cases client_configured <;> rfl
    rw [hg]

/-- Claim C6 counterexample: a generated response the validator rejects
(it contains the forbidden word "sorry") produces the outcome
⟨failed, ai_generation_failed⟩ — not a Rejected status with a gate reason
— and that outcome is identical to the one produced when the model call
itself fails, so the two are indistinguishable in the run summary. -/
theorem claim_C6_counterexample :
    reviewDetail true
        (fun _ => ModelResult.text
          ("We are sorry for the trouble, please contact support.".toList))
        (fun _ _ => PostResult.ok) true ⟨"c6", 1, "Bad app".toList, false⟩
      = ⟨"c6", "failed", some "ai_generation_failed", none⟩ ∧
    reviewDetail true (fun _ => ModelResult.failure "model down")
        (fun _ _ => PostResult.ok) true ⟨"c6", 1, "Bad app".toList, false⟩
      = ⟨"c6", "failed", some "ai_generation_failed", none⟩ := by
  refine ⟨by decide, by decide⟩

/-- Claim C6 witness: the amended rejection conjunct applied to a concrete
forbidden-word response. -/
theorem claim_C6_witness :
    reviewDetail true
        (fun _ => ModelResult.text
          ("Unfortunately this is a known problem in the app.".toList))
        (fun _ _ => PostResult.ok) false ⟨"w6", 2, "Does not work".toList, false⟩
      = ⟨"w6", "failed", some "ai_generation_failed", none⟩ :=
  claim_C6.2.1 (fun _ => ModelResult.text
      ("Unfortunately this is a known problem in the app.".toList))
    (fun _ _ => PostResult.ok) false ⟨"w6", 2, "Does not work".toList, false⟩
    ("Unfortunately this is a known problem in the app.".toList)
    rfl (by decide) rfl (by decide)

/-- Claim C9 (amended): the run aborts before any review is processed only
when AI is not enabled or no generator object exists; a merely
unconfigured model client (missing credential) does not abort the run —
generation returns `None` and every eligible review is recorded as
failed / ai_generation_failed, so per-review outcomes are produced. -/
theorem claim_C9 :
    (∀ (has_generator client_configured : Bool) (rs : List Review)
       (model : Review → ModelResult) (post : String → List Char → PostResult)
       (dry_run : Bool),
      auto_reply_to_reviews false has_generator client_configured rs model post dry_run
        = .error "AI is not enabled. Initialize with enable_ai=True") ∧
    (∀ (enable_ai client_configured : Bool) (rs : List Review)
       (model : Review → ModelResult) (post : String → List Char → PostResult)
       (dry_run : Bool),
      auto_reply_to_reviews enable_ai false client_configured rs model post dry_run
        = .error "AI is not enabled. Initialize with enable_ai=True") ∧
    (∀ (rs : List Review) (model : Review → ModelResult)
       (post : String → List Char → PostResult) (dry_run : Bool),
      auto_reply_to_reviews true true false rs model post dry_run
        = .ok (runResults false model post dry_run rs)) ∧
    (∀ (mr : ModelResult) (t : List Char) (rating : Int),
      generate_response false mr t rating = none) ∧
    (∀ (model : Review → ModelResult) (post : String → List Char → PostResult)
       (dry_run : Bool) (r : Review),
      r.hasReply = false → pyStrip r.userComment ≠ [] →
      reviewDetail false model post dry_run r
        = ⟨r.reviewId, "failed", some "ai_generation_failed", none⟩) := by
  refine ⟨?_, ?_, ?_, ?_, ?_⟩
  · intro has_generator client_configured rs model post dry_run
    rfl
  · intro enable_ai client_configured rs model post dry_run
    cases enable_ai <;> rfl
  · intro rs model post dry_run
    exact auto_reply_enabled_eq _ _ _ _ _
  · intro mr t rating
    rfl
  · intro model post dry_run r h1 h2
    unfold reviewDetail
    rw [if_neg (by simp [h1]), if_neg (by simpa using h2)]
    rfl

/-- Claim C9 counterexample: with the model client unconfigured
(`GEMINI_API_KEY` absent, so `gemini_client is None`) but AI enabled, a
one-review run does not raise — it returns a full summary with the review
processed and recorded as failed / ai_generation_failed, contradicting
"raised before any review is processed — no per-review outcomes". -/
theorem claim_C9_counterexample :
    auto_reply_to_reviews true true false
        [⟨"r1", 1, "App crashes constantly".toList, false⟩]
        (fun _ => ModelResult.text ("irrelevant".toList))
        (fun _ _ => PostResult.ok) false
      = .ok ⟨1, 0, 1, 0,
          [⟨"r1", "failed", some "ai_generation_failed", none⟩], []⟩ := by
  rfl

/-- Claim C9 witness: the enable-check conjunct and the per-review
failed-outcome conjunct at concrete inputs. -/
theorem claim_C9_witness :
    auto_reply_to_reviews false true true []
        (fun _ => ModelResult.failure "x") (fun _ _ => PostResult.ok) true
      = .error "AI is not enabled. Initialize with enable_ai=True" ∧
    reviewDetail false (fun _ => ModelResult.failure "x")
        (fun _ _ => PostResult.ok) true
        ⟨"w9", 1, "App crashes constantly".toList, false⟩
      = ⟨"w9", "failed", some "ai_generation_failed", none⟩ :=
  ⟨claim_C9.1 true true [] (fun _ => ModelResult.failure "x")
      (fun _ _ => PostResult.ok) true,
   claim_C9.2.2.2.2 (fun _ => ModelResult.failure "x")
      (fun _ _ => PostResult.ok) true
      ⟨"w9", 1, "App crashes constantly".toList, false⟩ rfl (by decide)⟩

end PlayReviews
